import Mathlib

/-
Verification of the session registry and per-session connection lifecycle of
a multi-tenant WhatsApp gateway. The Go package under verification defines a
ClientManager (registry of named sessions with a default-session pointer) and
a Client (one session wrapping an external protocol engine). Pure control flow
is embedded shallowly: engine calls (IsConnected, IsLoggedIn, Connect,
Disconnect, GetQRChannel, SendMessage) are modelled by explicit engine state
and by outcome parameters for the fallible calls, and filesystem writes by
boolean outcome parameters. Go byte strings are modelled as List Char where
character-level operations matter, since every character the code inspects is
a single ASCII byte.
-/

namespace Gateway

/-- ClientStatus from the source: logged_out, connected, disconnected, error. -/
inductive ClientStatus
  | loggedOut
  | connected
  | disconnected
  | error
deriving DecidableEq, Repr

/-- State of the external whatsmeow engine visible through its capability
interface: the IsConnected and IsLoggedIn flags, plus the display metadata
(deviceStore.PushName and Store.ID) that GetState reads. -/
structure Engine where
  connected : Bool
  loggedIn : Bool
  pushName : String
  storeID : Option String
deriving DecidableEq, Repr

/-- The mutable fields of the Go Client struct that the verified operations
touch: id, derived status, lastActivity timestamp, connection-error string,
and the exclusively owned engine. Timestamps are abstracted to Nat. -/
structure Client where
  id : String
  engine : Engine
  status : ClientStatus
  lastActivity : Nat
  connError : String
deriving DecidableEq, Repr

/-- ClientState from the source: the JSON-serialized snapshot returned by
GetState and persisted to state.json. -/
structure ClientState where
  id : String
  status : ClientStatus
  lastActivity : Nat
  connected : Bool
  loggedIn : Bool
  pushName : String
  phoneNumber : String
  connectionError : String
deriving DecidableEq, Repr

/-- Client.GetState: reads the live engine flags, recomputes status
(loggedIn beats connected beats the cached field), and assembles the
snapshot. Mirrors the source line by line. -/
def getState (c : Client) : ClientState :=
  let connected := c.engine.connected
  let loggedIn := c.engine.loggedIn
  let status :=
    if loggedIn then ClientStatus.connected
    else if connected then ClientStatus.disconnected
    else c.status
  let pushName := c.engine.pushName
  let phoneNumber :=
    if loggedIn then
      match c.engine.storeID with
      | some user => user
      | none => ""
    else ""
  { id := c.id
    status := status
    lastActivity := c.lastActivity
    connected := connected
    loggedIn := loggedIn
    pushName := pushName
    phoneNumber := phoneNumber
    connectionError := c.connError }

/-- C1: for every session, GetState returns a snapshot whose status is
recomputed from the live engine flags: Connected when the engine reports
logged-in; Disconnected when the engine reports connected but not logged-in;
otherwise the last explicitly recorded status field. -/
theorem getState_status_recomputed (c : Client) :
    (c.engine.loggedIn = true → (getState c).status = ClientStatus.connected) ∧
    (c.engine.loggedIn = false → c.engine.connected = true →
      (getState c).status = ClientStatus.disconnected) ∧
    (c.engine.loggedIn = false → c.engine.connected = false →
      (getState c).status = c.status) := by
  refine ⟨fun hl => ?_, fun hl hc => ?_, fun hl hc => ?_⟩
  · simp [getState, hl]
  · simp [getState, hl, hc]
  · simp [getState, hl, hc]

/-- Witness for C1: evaluates GetState on three concrete sessions, one per
branch of the status recomputation. -/
theorem getState_status_recomputed_witness :
    (getState { id := "a"
                engine := { connected := false, loggedIn := true,
                            pushName := "", storeID := none }
                status := ClientStatus.loggedOut
                lastActivity := 0
                connError := "" }).status = ClientStatus.connected ∧
    (getState { id := "b"
                engine := { connected := true, loggedIn := false,
                            pushName := "", storeID := none }
                status := ClientStatus.loggedOut
                lastActivity := 0
                connError := "" }).status = ClientStatus.disconnected ∧
    (getState { id := "c"
                engine := { connected := false, loggedIn := false,
                            pushName := "", storeID := none }
                status := ClientStatus.error
                lastActivity := 0
                connError := "x" }).status = ClientStatus.error := by
  refine ⟨(getState_status_recomputed _).1 rfl,
          (getState_status_recomputed _).2.1 rfl rfl,
          (getState_status_recomputed _).2.2 rfl rfl⟩

/-- Failure of Client.Connect: the wrapped engine connect error. -/
inductive ConnErr
  | connectFailed (msg : String)
deriving DecidableEq, Repr

/-- Client.Connect: updates lastActivity; returns success at once when the
engine is already connected; otherwise asks the engine to connect.
connectResult models the outcome of the engine call (some msg is a failure
with that message). On failure, status becomes error and the message is
retained in connError; on success, status becomes connected or disconnected
according to the live logged-in flag. The source does not touch connError on
the success path. -/
def connect (c : Client) (now : Nat) (connectResult : Option String) :
    Option ConnErr × Client :=
  let c1 := { c with lastActivity := now }
  if c1.engine.connected then (none, c1)
  else
    match connectResult with
    | some msg =>
        (some (ConnErr.connectFailed msg),
         { c1 with status := ClientStatus.error, connError := msg })
    | none =>
        let engine := { c1.engine with connected := true }
        let status :=
          if engine.loggedIn then ClientStatus.connected
          else ClientStatus.disconnected
        (none, { c1 with engine := engine, status := status })

/-- The engine lifecycle events Client.handleEvent dispatches on: the QR
notification event, Connected, Disconnected, and every other event kind. -/
inductive WAEvent
  | qr
  | connectedEvt
  | disconnectedEvt
  | other
deriving DecidableEq, Repr

/-- Client.handleEvent: updates lastActivity on every event; a Connected
event sets status to connected and clears connError; a Disconnected event
sets status to disconnected when the engine still reports logged-in, else
loggedOut; the QR event only performs a non-blocking channel notification,
changing no field. -/
def handleEvent (c : Client) (now : Nat) (evt : WAEvent) : Client :=
  let c1 := { c with lastActivity := now }
  match evt with
  | WAEvent.qr => c1
  | WAEvent.connectedEvt =>
      { c1 with status := ClientStatus.connected, connError := "" }
  | WAEvent.disconnectedEvt =>
      { c1 with status :=
          if c1.engine.loggedIn then ClientStatus.disconnected
          else ClientStatus.loggedOut }
  | WAEvent.other => c1

/-- Counterexample for C7: a Connect call that returns success does not clear
connectionError. A session carrying connError "boom" whose engine connect
succeeds still carries "boom" afterwards. -/
theorem connect_success_keeps_connError :
    (connect { id := "a"
               engine := { connected := false, loggedIn := false,
                           pushName := "", storeID := none }
               status := ClientStatus.error
               lastActivity := 0
               connError := "boom" } 1 none).1 = none ∧
    ((connect { id := "a"
                engine := { connected := false, loggedIn := false,
                            pushName := "", storeID := none }
                status := ClientStatus.error
                lastActivity := 0
                connError := "boom" } 1 none).2).connError = "boom" := by
  exact ⟨rfl, rfl⟩

/-- C7 amended: connectionError is cleared by a connected event from the
engine; a Connect call that returns success leaves connectionError unchanged
from its value before the call. -/
theorem connError_cleared_on_connected_event :
    (∀ (c : Client) (now : Nat),
      (handleEvent c now WAEvent.connectedEvt).connError = "") ∧
    (∀ (c : Client) (now : Nat) (r : Option String),
      (connect c now r).1 = none → ((connect c now r).2).connError = c.connError) := by
  constructor
  · intro c now
    rfl
  · intro c now r h
    unfold connect at h ⊢
    by_cases hc : c.engine.connected
    · simp [hc]
    · simp [hc] at h ⊢
      cases r with
      | none => rfl
      | some msg => simp at h

/-- Witness for C7 amended: evaluates both parts on a concrete session that
carries a stale error message. -/
theorem connError_cleared_on_connected_event_witness :
    (handleEvent { id := "w"
                   engine := { connected := false, loggedIn := false,
                               pushName := "", storeID := none }
                   status := ClientStatus.error
                   lastActivity := 0
                   connError := "boom" } 2 WAEvent.connectedEvt).connError = "" ∧
    ((connect { id := "w"
                engine := { connected := false, loggedIn := false,
                            pushName := "", storeID := none }
                status := ClientStatus.error
                lastActivity := 0
                connError := "boom" } 2 none).2).connError = "boom" :=
  ⟨connError_cleared_on_connected_event.1 _ 2,
   connError_cleared_on_connected_event.2 _ 2 none rfl⟩

/-- The distinct failures Client.GenerateQR constructs. Each constructor
stands for one distinct error the source builds: already logged in, failed
to request the QR channel, failed to connect, client-outdated protocol,
unexpected QR event kind, and the 30-second timeout. -/
inductive QRErr
  | alreadyAuthenticated
  | qrRequestFailed (msg : String)
  | connectionFailed (msg : String)
  | protocolOutdated
  | unexpectedEvent (kind : String)
  | authenticationTimeout
deriving DecidableEq, Repr

/-- Outcome of the bounded 30-second select on the QR channel: either the
first event arrives, carrying its kind and code payload, or the timeout
fires first. -/
inductive QRWait
  | event (kind : String) (code : String)
  | timeout
deriving DecidableEq, Repr

/-- Engine lifecycle calls GenerateQR can issue, recorded in order. -/
inductive EngineCall
  | disconnectCall
  | getQRChannelCall
  | connectCall
deriving DecidableEq, Repr

/-- Client.GenerateQR: updates lastActivity; fails at once when the engine
reports logged-in; disconnects first when connected; subscribes to the QR
channel before connecting (qrChanResult models that call, some msg being
failure); connects (connectResult likewise); then performs the bounded wait,
mapping a code event to success, an err-client-outdated event to the
outdated failure, any other event kind to the unexpected-event failure, and
the timeout to the timeout failure. Returns the result, the session after
the call, and the engine calls issued. -/
def generateQR (c : Client) (now : Nat) (qrChanResult : Option String)
    (connectResult : Option String) (wait : QRWait) :
    Except QRErr String × Client × List EngineCall :=
  let c1 := { c with lastActivity := now }
  if c1.engine.loggedIn then
    (Except.error QRErr.alreadyAuthenticated, c1, [])
  else
    let pre :=
      if c1.engine.connected then
        ({ c1 with engine := { c1.engine with connected := false } },
         [EngineCall.disconnectCall])
      else (c1, [])
    let c2 := pre.1
    let calls0 := pre.2
    match qrChanResult with
    | some msg =>
        (Except.error (QRErr.qrRequestFailed msg),
         { c2 with status := ClientStatus.error, connError := msg },
         calls0 ++ [EngineCall.getQRChannelCall])
    | none =>
      let calls1 := calls0 ++ [EngineCall.getQRChannelCall]
      match connectResult with
      | some msg =>
          (Except.error (QRErr.connectionFailed msg),
           { c2 with status := ClientStatus.error, connError := msg },
           calls1 ++ [EngineCall.connectCall])
      | none =>
        let c3 := { c2 with engine := { c2.engine with connected := true } }
        let calls2 := calls1 ++ [EngineCall.connectCall]
        match wait with
        | QRWait.event kind code =>
            if kind = "code" then (Except.ok code, c3, calls2)
            else if kind = "err-client-outdated" then
              (Except.error QRErr.protocolOutdated, c3, calls2)
            else (Except.error (QRErr.unexpectedEvent kind), c3, calls2)
        | QRWait.timeout =>
            (Except.error QRErr.authenticationTimeout, c3, calls2)

/-- C3: when GenerateQR passes the logged-in check and both the QR-channel
request and the engine Connect succeed, the bounded wait resolves exactly
as: a code event yields the payload; an err-client-outdated event yields
the protocol-outdated failure, which differs from every connection failure;
any other event kind yields the unexpected-event failure; and the timeout
yields the authentication-timeout failure. -/
theorem generateQR_wait_outcomes (c : Client) (now : Nat)
    (hl : c.engine.loggedIn = false) :
    (∀ code : String,
      (generateQR c now none none (QRWait.event "code" code)).1 = Except.ok code) ∧
    (∀ code : String,
      (generateQR c now none none (QRWait.event "err-client-outdated" code)).1 =
        Except.error QRErr.protocolOutdated) ∧
    (∀ msg : String, QRErr.protocolOutdated ≠ QRErr.connectionFailed msg) ∧
    (∀ kind code : String, kind ≠ "code" → kind ≠ "err-client-outdated" →
      (generateQR c now none none (QRWait.event kind code)).1 =
        Except.error (QRErr.unexpectedEvent kind)) ∧
    (generateQR c now none none QRWait.timeout).1 =
      Except.error QRErr.authenticationTimeout := by
  constructor
  · intro code
    simp [generateQR, hl]
  constructor
  · intro code
    simp [generateQR, hl]
  constructor
  · intro msg h
    cases h
  constructor
  · intro kind code hk1 hk2
    simp [generateQR, hl, hk1, hk2]
  · simp [generateQR, hl]

/-- Witness for C3: a concrete not-logged-in session exercised on all four
wait outcomes. -/
theorem generateQR_wait_outcomes_witness :
    (generateQR { id := "q"
                  engine := { connected := false, loggedIn := false,
                              pushName := "", storeID := none }
                  status := ClientStatus.loggedOut
                  lastActivity := 0
                  connError := "" } 3 none none
      (QRWait.event "code" "QRDATA")).1 = Except.ok "QRDATA" ∧
    (generateQR { id := "q"
                  engine := { connected := false, loggedIn := false,
                              pushName := "", storeID := none }
                  status := ClientStatus.loggedOut
                  lastActivity := 0
                  connError := "" } 3 none none
      (QRWait.event "err-client-outdated" "")).1 =
        Except.error QRErr.protocolOutdated ∧
    (generateQR { id := "q"
                  engine := { connected := false, loggedIn := false,
                              pushName := "", storeID := none }
                  status := ClientStatus.loggedOut
                  lastActivity := 0
                  connError := "" } 3 none none
      (QRWait.event "success" "")).1 =
        Except.error (QRErr.unexpectedEvent "success") ∧
    (generateQR { id := "q"
                  engine := { connected := false, loggedIn := false,
                              pushName := "", storeID := none }
                  status := ClientStatus.loggedOut
                  lastActivity := 0
                  connError := "" } 3 none none QRWait.timeout).1 =
        Except.error QRErr.authenticationTimeout := by
  refine ⟨(generateQR_wait_outcomes _ 3 rfl).1 "QRDATA",
          (generateQR_wait_outcomes _ 3 rfl).2.1 "",
          (generateQR_wait_outcomes _ 3 rfl).2.2.2.1 "success" ""
            (by decide) (by decide),
          (generateQR_wait_outcomes _ 3 rfl).2.2.2.2⟩

/-- C8: on a session whose engine reports logged-in, GenerateQR fails with
the already-authenticated error, issues no engine lifecycle call, and leaves
every session field except lastActivity unchanged. -/
theorem generateQR_already_authenticated (c : Client) (now : Nat)
    (qrChanResult connectResult : Option String) (wait : QRWait)
    (hl : c.engine.loggedIn = true) :
    (generateQR c now qrChanResult connectResult wait).1 =
      Except.error QRErr.alreadyAuthenticated ∧
    (generateQR c now qrChanResult connectResult wait).2.1 =
      { c with lastActivity := now } ∧
    (generateQR c now qrChanResult connectResult wait).2.2 = [] := by
  refine ⟨?_, ?_, ?_⟩ <;> simp [generateQR, hl]

/-- Witness for C8: a concrete logged-in session; GenerateQR returns the
already-authenticated failure with no engine call and only the activity
timestamp updated. -/
theorem generateQR_already_authenticated_witness :
    (generateQR { id := "z"
                  engine := { connected := true, loggedIn := true,
                              pushName := "p", storeID := some "628" }
                  status := ClientStatus.connected
                  lastActivity := 7
                  connError := "old" } 9 none none QRWait.timeout).1 =
      Except.error QRErr.alreadyAuthenticated ∧
    (generateQR { id := "z"
                  engine := { connected := true, loggedIn := true,
                              pushName := "p", storeID := some "628" }
                  status := ClientStatus.connected
                  lastActivity := 7
                  connError := "old" } 9 none none QRWait.timeout).2.1 =
      { id := "z"
        engine := { connected := true, loggedIn := true,
                    pushName := "p", storeID := some "628" }
        status := ClientStatus.connected
        lastActivity := 9
        connError := "old" } ∧
    (generateQR { id := "z"
                  engine := { connected := true, loggedIn := true,
                              pushName := "p", storeID := some "628" }
                  status := ClientStatus.connected
                  lastActivity := 7
                  connError := "old" } 9 none none QRWait.timeout).2.2 = [] :=
  generateQR_already_authenticated _ 9 none none QRWait.timeout rfl

/-- Client.PairPhone: unconditionally returns the not-available error and
touches no session field. -/
def pairPhone (c : Client) (phoneNumber : String) : Option String × Client :=
  (some "phone pairing is not available in the current library version, please use QR code authentication",
   c)

/-- Client.GetPairingCode: unconditionally returns the not-available error
and touches no session field. -/
def getPairingCode (c : Client) : Except String String × Client :=
  (Except.error "phone pairing is not available in the current library version",
   c)

/-- C10: for every session state and every input, PairPhone fails and
GetPairingCode fails, and neither call changes any session field. -/
theorem pairing_always_fails (c : Client) (phoneNumber : String) :
    (pairPhone c phoneNumber).1.isSome = true ∧
    (pairPhone c phoneNumber).2 = c ∧
    (∃ msg : String, (getPairingCode c).1 = Except.error msg) ∧
    (getPairingCode c).2 = c :=
  ⟨rfl, rfl, ⟨_, rfl⟩, rfl⟩

/-- The leading-plus strip in SendMessage: when the recipient is nonempty and
its first byte is the plus sign, drop that byte. -/
def dropPlus (r : List Char) : List Char :=
  if r.head? = some '+' then r.tail else r

/-- The default user-address suffix SendMessage appends. -/
def waSuffix : List Char := "@s.whatsapp.net".toList

/-- The recipient normalization in SendMessage: strip one leading plus sign,
then append the default user-address suffix when the string holds no at
separator. -/
def normalizeRecipient (r : List Char) : List Char :=
  let r1 := dropPlus r
  if r1.contains '@' then r1 else r1 ++ waSuffix

theorem at_mem_append_waSuffix (l : List Char) : '@' ∈ l ++ waSuffix :=
  List.mem_append.2 (Or.inr (by decide))

theorem normalizeRecipient_fixpoint (l : List Char)
    (hh : l.head? ≠ some '+') (hc : '@' ∈ l) :
    normalizeRecipient l = l := by
  simp [normalizeRecipient, dropPlus, if_neg hh, hc]

theorem dropPlus_head_ne_plus (r : List Char) (h : r.take 2 ≠ ['+', '+']) :
    (dropPlus r).head? ≠ some '+' := by
  match r with
  | [] => simp [dropPlus]
  | a :: t =>
    by_cases ha : a = '+'
    · subst ha
      have : dropPlus ('+' :: t) = t := by simp [dropPlus]
      rw [this]
      match t with
      | [] => simp
      | b :: u =>
        intro hb
        simp only [List.head?] at hb
        apply h
        simp [List.take]
        exact Option.some.inj hb
    · have : dropPlus (a :: t) = a :: t := by
        simp [dropPlus]
        intro hb
        exact absurd hb ha
      rw [this]
      simp only [List.head?, ne_eq, Option.some.injEq]
      exact ha

/-- Counterexample for C6: normalization is not idempotent on every string.
The recipient "++1" normalizes to "+1@s.whatsapp.net", which normalizes
again to the different address "1@s.whatsapp.net", because the source strips
only a single leading plus sign. -/
theorem normalizeRecipient_not_idempotent :
    normalizeRecipient (normalizeRecipient ('+' :: '+' :: ['1'])) ≠
      normalizeRecipient ('+' :: '+' :: ['1']) := by
  decide

/-- C6 amended: normalization is idempotent for every recipient that does not
begin with two plus signs, and the three spec inputs all normalize to the
same final address. -/
theorem normalizeRecipient_idem_unless_double_plus :
    (∀ r : List Char, r.take 2 ≠ ['+', '+'] →
      normalizeRecipient (normalizeRecipient r) = normalizeRecipient r) ∧
    (normalizeRecipient "+6281234@s.whatsapp.net".toList =
        "6281234@s.whatsapp.net".toList ∧
      normalizeRecipient "6281234@s.whatsapp.net".toList =
        "6281234@s.whatsapp.net".toList ∧
      normalizeRecipient "6281234".toList = "6281234@s.whatsapp.net".toList) := by
  constructor
  · intro r h
    have hh : (dropPlus r).head? ≠ some '+' := dropPlus_head_ne_plus r h
    by_cases hc : '@' ∈ dropPlus r
    · have hn : normalizeRecipient r = dropPlus r := by
        simp [normalizeRecipient, hc]
      rw [hn]
      exact normalizeRecipient_fixpoint _ hh hc
    · have hn : normalizeRecipient r = dropPlus r ++ waSuffix := by
        simp [normalizeRecipient, hc]
      rw [hn]
      apply normalizeRecipient_fixpoint
      · match hd : dropPlus r with
        | [] => decide
        | b :: u =>
          rw [hd] at hh
          simpa using hh
      · exact at_mem_append_waSuffix _
  · exact ⟨by decide, by decide, by decide⟩

/-- Witness for C6 amended: idempotence evaluated at the concrete recipient
"6281234". -/
theorem normalizeRecipient_idem_unless_double_plus_witness :
    normalizeRecipient (normalizeRecipient "6281234".toList) =
      normalizeRecipient "6281234".toList :=
  normalizeRecipient_idem_unless_double_plus.1 _ (by decide)

/-- The distinct failures Client.SendMessage constructs. -/
inductive SendErr
  | notConnected
  | notLoggedIn
  | invalidRecipient (msg : String)
  | sendFailed (msg : String)
deriving DecidableEq, Repr

/-- The user-address class of the external network (types.DefaultUserServer). -/
def defaultUserServer : List Char := "s.whatsapp.net".toList

/-- Model of the external address parser (types.ParseJID restricted to how
SendMessage uses it): split the address at the first at separator into local
part and server; an address without the separator carries no local part. -/
def splitFirstAt : List Char → Option (List Char × List Char)
  | [] => none
  | a :: rest =>
    if a = '@' then some ([], rest)
    else
      match splitFirstAt rest with
      | none => none
      | some (u, s) => some (a :: u, s)

/-- Client.SendMessage: updates lastActivity; fails with notConnected or
notLoggedIn from the live engine flags; normalizes the recipient; parses the
normalized address and rejects a parse failure, a server other than the user
class, or an empty local part as invalidRecipient; then dispatches through
the engine, whose outcome sendResult models (some msg is a failure). The
source never writes status, connError or the engine state here. -/
def sendMessage (c : Client) (now : Nat) (recipient : List Char)
    (message : String) (sendResult : Option String) : Option SendErr × Client :=
  let c1 := { c with lastActivity := now }
  if c1.engine.connected = false then (some SendErr.notConnected, c1)
  else if c1.engine.loggedIn = false then (some SendErr.notLoggedIn, c1)
  else
    let r := normalizeRecipient recipient
    match splitFirstAt r with
    | none => (some (SendErr.invalidRecipient "parse failed"), c1)
    | some (user, server) =>
      if server ≠ defaultUserServer then
        (some (SendErr.invalidRecipient "not a user JID"), c1)
      else if user = [] then
        (some (SendErr.invalidRecipient "empty user"), c1)
      else
        match sendResult with
        | some msg => (some (SendErr.sendFailed msg), c1)
        | none => (none, c1)

/-- C9: whenever SendMessage returns a failure, the status and
connectionError fields after the call equal their values before it. -/
theorem sendMessage_failure_frame (c : Client) (now : Nat)
    (recipient : List Char) (message : String) (sendResult : Option String)
    (e : SendErr)
    (hf : (sendMessage c now recipient message sendResult).1 = some e) :
    ((sendMessage c now recipient message sendResult).2).status = c.status ∧
    ((sendMessage c now recipient message sendResult).2).connError = c.connError := by
  clear hf
  unfold sendMessage
  by_cases h1 : c.engine.connected = false
  · simp [h1]
  · by_cases h2 : c.engine.loggedIn = false
    · simp [h1, h2]
    · simp only [h1, h2, if_false]
      match splitFirstAt (normalizeRecipient recipient) with
      | none => exact ⟨rfl, rfl⟩
      | some (user, server) =>
        by_cases h3 : server = defaultUserServer
        · by_cases h4 : user = []
          · simp [h3, h4]
          · match sendResult with
            | some msg => simp [h3, h4]
            | none => simp [h3, h4]
        · simp [h3]

/-- Witness for C9: a concrete SendMessage call that fails with the
not-connected error leaves status and connectionError untouched. -/
theorem sendMessage_failure_frame_witness :
    (sendMessage { id := "s"
                   engine := { connected := false, loggedIn := false,
                               pushName := "", storeID := none }
                   status := ClientStatus.disconnected
                   lastActivity := 4
                   connError := "e" } 5 "6281234".toList "hi" none).1 =
      some SendErr.notConnected ∧
    ((sendMessage { id := "s"
                    engine := { connected := false, loggedIn := false,
                                pushName := "", storeID := none }
                    status := ClientStatus.disconnected
                    lastActivity := 4
                    connError := "e" } 5 "6281234".toList "hi" none).2).status =
      ClientStatus.disconnected ∧
    ((sendMessage { id := "s"
                    engine := { connected := false, loggedIn := false,
                                pushName := "", storeID := none }
                    status := ClientStatus.disconnected
                    lastActivity := 4
                    connError := "e" } 5 "6281234".toList "hi" none).2).connError =
      "e" := by
  refine ⟨by decide, ?_, ?_⟩
  · exact (sendMessage_failure_frame _ 5 _ "hi" none SendErr.notConnected
      (by decide)).1
  · exact (sendMessage_failure_frame _ 5 _ "hi" none SendErr.notConnected
      (by decide)).2

/-- The registry fields lifecycle operations touch: the id-to-session map,
modelled as an association list with unique keys, and the default-session
pointer (empty string means unset), as in the source. -/
structure ClientManager where
  clients : List (String × Client)
  defaultClient : String
deriving DecidableEq, Repr

/-- Lookup in the id-to-session map. -/
def findClient : List (String × Client) → String → Option Client
  | [], _ => none
  | (k, c) :: rest, id => if k = id then some c else findClient rest id

/-- Removal from the id-to-session map. -/
def removeClient : List (String × Client) → String → List (String × Client)
  | [], _ => []
  | (k, c) :: rest, id =>
      if k = id then removeClient rest id else (k, c) :: removeClient rest id

/-- NewClient on its success path: a fresh session with a fresh engine,
loggedOut status, current timestamp and no error. -/
def newClient (id : String) (now : Nat) : Client :=
  { id := id
    engine := { connected := false, loggedIn := false,
                pushName := "", storeID := none }
    status := ClientStatus.loggedOut
    lastActivity := now
    connError := "" }

/-- The distinct failures the registry operations construct. -/
inductive MgrErr
  | invalidID
  | alreadyExists (id : String)
  | notFound (id : String)
  | noDefaultClient
  | newClientFailed (msg : String)
  | persistFailed (msg : String)
deriving DecidableEq, Repr

/-- ClientManager.CreateClient: rejects the empty id, rejects an existing
id, constructs the session (newClientResult models the fallible NewClient
call), inserts it, makes it the default exactly when it is the only entry
and no default is set, and saves its state best-effort (a save failure is
logged and does not change the outcome, so it does not appear here). -/
def createClient (cm : ClientManager) (id : String) (now : Nat)
    (newClientResult : Option String) : Except MgrErr Client × ClientManager :=
  if id = "" then (Except.error MgrErr.invalidID, cm)
  else if (findClient cm.clients id).isSome then
    (Except.error (MgrErr.alreadyExists id), cm)
  else
    match newClientResult with
    | some msg => (Except.error (MgrErr.newClientFailed msg), cm)
    | none =>
      let client := newClient id now
      let clients := cm.clients ++ [(id, client)]
      let defaultClient :=
        if clients.length = 1 ∧ cm.defaultClient = "" then id
        else cm.defaultClient
      (Except.ok client, { clients := clients, defaultClient := defaultClient })

/-- ClientManager.GetClient: an empty id resolves to the default, failing
when none is set; the resolved id must be present. -/
def getClient (cm : ClientManager) (id : String) : Except MgrErr Client :=
  if id = "" then
    if cm.defaultClient = "" then Except.error MgrErr.noDefaultClient
    else
      match findClient cm.clients cm.defaultClient with
      | none => Except.error (MgrErr.notFound cm.defaultClient)
      | some c => Except.ok c
  else
    match findClient cm.clients id with
    | none => Except.error (MgrErr.notFound id)
    | some c => Except.ok c

/-- ClientManager.DeleteClient: fails when the id is absent; tears the
session engine down (disconnect, best-effort logout, close, all of which
cannot fail in the source), removes the entry, and when the deleted id was
the default, clears the default and reassigns it to some remaining session
when one exists; directory removal is logged best-effort and does not change
the outcome. -/
def deleteClient (cm : ClientManager) (id : String) :
    Except MgrErr Unit × ClientManager :=
  match findClient cm.clients id with
  | none => (Except.error (MgrErr.notFound id), cm)
  | some _ =>
    let clients := removeClient cm.clients id
    let defaultClient :=
      if cm.defaultClient = id then
        match clients with
        | [] => ""
        | (k, _) :: _ => k
      else cm.defaultClient
    (Except.ok (), { clients := clients, defaultClient := defaultClient })

/-- ClientManager.SetDefaultClient: fails when the id is absent; otherwise
records the default in memory and then writes the marker file, whose
fallible outcome writeOk models; a write failure is returned after the
in-memory update already happened. -/
def setDefaultClient (cm : ClientManager) (id : String) (writeOk : Bool) :
    Except MgrErr Unit × ClientManager :=
  match findClient cm.clients id with
  | none => (Except.error (MgrErr.notFound id), cm)
  | some _ =>
    let cm2 := { cm with defaultClient := id }
    if writeOk then (Except.ok (), cm2)
    else (Except.error (MgrErr.persistFailed "failed to save default client"), cm2)

/-- ClientManager.Close: stops the save timer, saves and closes every
session best-effort, and replaces the map with a fresh empty one. The source
leaves the defaultClient field as it was. -/
def closeManager (cm : ClientManager) : ClientManager :=
  { cm with clients := [] }

/-- ClientManager.LoadClients: walks the storage directory entries in order.
An entry is modelled as its directory name together with its parsed state
when every step (state file present, readable, parseable, NewClient)
succeeds, and none when any step failed and the entry is skipped. Each
loaded entry is added to the map, and after each addition the default marker
file is read (defaultFile models its content, none when unreadable) and its
raw content stored as the default pointer without a membership check.
Reconnect attempts are launched asynchronously and change no registry
field. -/
def loadClients (cm : ClientManager) (entries : List (String × Option ClientState))
    (defaultFile : Option String) (now : Nat) : ClientManager :=
  entries.foldl
    (fun acc entry =>
      match entry.2 with
      | none => acc
      | some _ =>
        let acc2 := { acc with clients := acc.clients ++ [(entry.1, newClient entry.1 now)] }
        match defaultFile with
        | some d => { acc2 with defaultClient := d }
        | none => acc2)
    cm

/-- ClientManager.SaveClients: attempts SaveState on every session in map
order, logging failures without stopping (saveOk models each per-session
outcome); then, when a default is set, writes the default marker file
(defaultWriteOk models that write) and returns its failure to the caller.
The result pairs the returned error with the attempted per-session saves in
order. -/
def saveClients (cm : ClientManager) (saveOk : String → Bool)
    (defaultWriteOk : Bool) : Option MgrErr × List (String × Bool) :=
  let attempts := cm.clients.foldl (fun acc p => acc ++ [(p.1, saveOk p.1)]) []
  let res :=
    if cm.defaultClient = "" then none
    else if defaultWriteOk then none
    else some (MgrErr.persistFailed "failed to save default client")
  (res, attempts)

/-- The registry invariant of the spec: the default pointer is empty or a
key present in the map. -/
def defaultInvariant (cm : ClientManager) : Prop :=
  cm.defaultClient = "" ∨ (findClient cm.clients cm.defaultClient).isSome = true

theorem findClient_append (l1 l2 : List (String × Client)) (k : String) :
    findClient (l1 ++ l2) k =
      match findClient l1 k with
      | some c => some c
      | none => findClient l2 k := by
  induction l1 with
  | nil => simp [findClient]
  | cons p t ih =>
    obtain ⟨a, b⟩ := p
    by_cases h : a = k
    · simp [findClient, h]
    · simp [findClient, h, ih]

theorem findClient_remove_ne (l : List (String × Client)) (id k : String)
    (h : k ≠ id) : findClient (removeClient l id) k = findClient l k := by
  induction l with
  | nil => rfl
  | cons p t ih =>
    obtain ⟨a, b⟩ := p
    by_cases ha : a = id
    · subst ha
      have hak : a ≠ k := fun hk => h (hk ▸ rfl)
      simp [removeClient, findClient, ih, hak]
    · by_cases hk : a = k
      · simp [removeClient, ha, findClient, hk, h]
      · simp [removeClient, ha, findClient, hk, ih]

/-- C4: from an empty registry, creating "work" succeeds and makes it the
default; creating "work" again fails with the already-exists error and the
map still holds exactly one entry; deleting "work" succeeds, empties the map
and clears the default; creating "work" once more succeeds and makes it the
default again. -/
theorem create_delete_create_scenario :
    let cm0 : ClientManager := { clients := [], defaultClient := "" }
    let s1 := createClient cm0 "work" 0 none
    let s2 := createClient s1.2 "work" 1 none
    let s3 := deleteClient s2.2 "work"
    let s4 := createClient s3.2 "work" 2 none
    s1.1 = Except.ok (newClient "work" 0) ∧ s1.2.defaultClient = "work" ∧
    s2.1 = Except.error (MgrErr.alreadyExists "work") ∧
    s2.2.clients.length = 1 ∧
    s3.1 = Except.ok () ∧ s3.2.clients = [] ∧ s3.2.defaultClient = "" ∧
    s4.1 = Except.ok (newClient "work" 2) ∧ s4.2.defaultClient = "work" := by
  exact ⟨rfl, rfl, rfl, rfl, rfl, rfl, rfl, rfl, rfl⟩

/-- Counterexample for C5: SaveClients does return a persistence failure to
the caller. With one session whose own save succeeds but whose registry has
a default set and an unwritable default marker file, the call returns the
persistence error instead of swallowing it. -/
theorem saveClients_propagates_default_marker_failure :
    (saveClients { clients := [("a", newClient "a" 0)], defaultClient := "a" }
      (fun _ => true) false).1 =
      some (MgrErr.persistFailed "failed to save default client") := by
  decide

/-- C5 amended: every individual session save is attempted regardless of the
other sessions save outcomes, and per-session save failures never propagate;
the call returns success exactly when no default is set or the default
marker write succeeds, so the only propagated persistence failure is the
default marker write. -/
theorem saveClients_attempts_all_sessions (cm : ClientManager)
    (saveOk : String → Bool) (defaultWriteOk : Bool) :
    (saveClients cm saveOk defaultWriteOk).2 =
      cm.clients.map (fun p => (p.1, saveOk p.1)) ∧
    ((saveClients cm saveOk defaultWriteOk).1 = none ↔
      (cm.defaultClient = "" ∨ defaultWriteOk = true)) := by
  constructor
  · show cm.clients.foldl (fun acc p => acc ++ [(p.1, saveOk p.1)]) [] = _
    have key : ∀ (l : List (String × Client)) (acc : List (String × Bool)),
        l.foldl (fun acc p => acc ++ [(p.1, saveOk p.1)]) acc =
          acc ++ l.map (fun p => (p.1, saveOk p.1)) := by
      intro l
      induction l with
      | nil => simp
      | cons x t ih => intro acc; simp [ih]
    simpa using key cm.clients []
  · show (if cm.defaultClient = "" then none
          else if defaultWriteOk then none
          else some (MgrErr.persistFailed "failed to save default client")) = none ↔ _
    by_cases h1 : cm.defaultClient = ""
    · simp [h1]
    · by_cases h2 : defaultWriteOk <;> simp [h1, h2]

/-- Counterexample for C2: two registry operations leave the default pointer
dangling. Close clears the map but keeps the default pointer, and LoadAll
stores the raw default marker content without checking membership, so a
marker naming a session that failed to load leaves a pointer to a missing
key. -/
theorem registry_default_dangling_after_close_and_load :
    ((closeManager { clients := [("work", newClient "work" 0)],
                     defaultClient := "work" }).defaultClient ≠ "" ∧
      findClient (closeManager { clients := [("work", newClient "work" 0)],
                                 defaultClient := "work" }).clients
        (closeManager { clients := [("work", newClient "work" 0)],
                        defaultClient := "work" }).defaultClient = none) ∧
    ((loadClients { clients := [], defaultClient := "" }
        [("a", some (getState (newClient "a" 0)))] (some "b") 0).defaultClient ≠ "" ∧
      findClient (loadClients { clients := [], defaultClient := "" }
          [("a", some (getState (newClient "a" 0)))] (some "b") 0).clients
        (loadClients { clients := [], defaultClient := "" }
          [("a", some (getState (newClient "a" 0)))] (some "b") 0).defaultClient =
        none) := by
  decide

/-- C2 amended: Create, Delete and SetDefault preserve the invariant that
the default pointer is empty or a key present in the map, and deleting the
session the default pointer references either clears the pointer with the
map left empty, or reassigns it to a remaining session. Close and LoadAll do
not preserve it. -/
theorem registry_default_invariant_preserved :
    (∀ (cm : ClientManager) (id : String) (now : Nat) (nr : Option String),
      defaultInvariant cm → defaultInvariant (createClient cm id now nr).2) ∧
    (∀ (cm : ClientManager) (id : String),
      defaultInvariant cm → defaultInvariant (deleteClient cm id).2) ∧
    (∀ (cm : ClientManager) (id : String) (writeOk : Bool),
      defaultInvariant cm → defaultInvariant (setDefaultClient cm id writeOk).2) ∧
    (∀ (cm : ClientManager) (id : String),
      cm.defaultClient = id → (deleteClient cm id).1 = Except.ok () →
      ((deleteClient cm id).2.clients = [] ∧
        (deleteClient cm id).2.defaultClient = "") ∨
      (findClient (deleteClient cm id).2.clients
        (deleteClient cm id).2.defaultClient).isSome = true) := by
  have hdel : ∀ (cm : ClientManager) (id : String),
      defaultInvariant cm → defaultInvariant (deleteClient cm id).2 := by
    intro cm id hinv
    unfold deleteClient
    match hf : findClient cm.clients id with
    | none => exact hinv
    | some c =>
      simp only [defaultInvariant]
      by_cases hd : cm.defaultClient = id
      · simp only [hd, if_pos rfl]
        match hr : removeClient cm.clients id with
        | [] => exact Or.inl rfl
        | (k, c2) :: rest =>
          refine Or.inr ?_
          simp [findClient]
      · simp only [if_neg hd]
        rcases hinv with he | hs
        · exact Or.inl he
        · refine Or.inr ?_
          rw [findClient_remove_ne _ _ _ hd]
          exact hs
  refine ⟨?_, hdel, ?_, ?_⟩
  · intro cm id now nr hinv
    unfold createClient
    split
    · exact hinv
    · split
      · exact hinv
      · next h1 =>
        cases nr with
        | some msg => exact hinv
        | none =>
          have hnone : findClient cm.clients id = none := by
            cases hf : findClient cm.clients id with
            | none => rfl
            | some c =>
              rw [hf] at h1
              simp at h1
          simp only [defaultInvariant]
          split
          · next h2 =>
            refine Or.inr ?_
            show (findClient (cm.clients ++ [(id, newClient id now)]) id).isSome = true
            rw [findClient_append, hnone]
            simp [findClient]
          · next h2 =>
            rcases hinv with he | hs
            · exact Or.inl he
            · refine Or.inr ?_
              show (findClient (cm.clients ++ [(id, newClient id now)])
                cm.defaultClient).isSome = true
              rw [findClient_append]
              cases ho : findClient cm.clients cm.defaultClient with
              | none =>
                rw [ho] at hs
                simp at hs
              | some c => simp
  · intro cm id writeOk hinv
    unfold setDefaultClient
    match hf : findClient cm.clients id with
    | none => exact hinv
    | some c =>
      have hmem : (findClient cm.clients id).isSome = true := by
        rw [hf]; rfl
      by_cases hw : writeOk <;> simp [hw, defaultInvariant, hmem]
  · intro cm id hd hok
    have := hdel cm id
    unfold deleteClient at hok ⊢
    match hf : findClient cm.clients id with
    | none => rw [hf] at hok; cases hok
    | some c =>
      simp only [hd, if_pos rfl]
      match hr : removeClient cm.clients id with
      | [] => exact Or.inl ⟨rfl, rfl⟩
      | (k, c2) :: rest =>
        refine Or.inr ?_
        simp [findClient]

/-- Witness for C2 amended: the four parts evaluated on a concrete registry
holding sessions "a" and "b" with default "a". -/
theorem registry_default_invariant_preserved_witness :
    defaultInvariant (createClient
      { clients := [("a", newClient "a" 0), ("b", newClient "b" 0)],
        defaultClient := "a" } "c" 0 none).2 ∧
    defaultInvariant (deleteClient
      { clients := [("a", newClient "a" 0), ("b", newClient "b" 0)],
        defaultClient := "a" } "a").2 ∧
    defaultInvariant (setDefaultClient
      { clients := [("a", newClient "a" 0), ("b", newClient "b" 0)],
        defaultClient := "a" } "b" true).2 ∧
    (((deleteClient
        { clients := [("a", newClient "a" 0), ("b", newClient "b" 0)],
          defaultClient := "a" } "a").2.clients = [] ∧
      (deleteClient
        { clients := [("a", newClient "a" 0), ("b", newClient "b" 0)],
          defaultClient := "a" } "a").2.defaultClient = "") ∨
      (findClient (deleteClient
          { clients := [("a", newClient "a" 0), ("b", newClient "b" 0)],
            defaultClient := "a" } "a").2.clients
        (deleteClient
          { clients := [("a", newClient "a" 0), ("b", newClient "b" 0)],
            defaultClient := "a" } "a").2.defaultClient).isSome = true) :=
  ⟨registry_default_invariant_preserved.1 _ "c" 0 none (Or.inr (by decide)),
   registry_default_invariant_preserved.2.1 _ "a" (Or.inr (by decide)),
   registry_default_invariant_preserved.2.2.1 _ "b" true (Or.inr (by decide)),
   registry_default_invariant_preserved.2.2.2 _ "a" rfl rfl⟩

end Gateway
